import Mathlib

/-!
Verification of the voice-agent session supervisor and audio gate.

The supervisor side (interrupt handling, bounded shutdown, transcript
flush, closing-keyword detection) is embedded from the Python functions
shown in the repository guide (`signal_handler`, `force_end`,
`wait_with_timeout`, `on_agent_response`).  The audio-gate side
(`EchoCancellationAudioInterface`) has no implementation file in the
repository, only its documentation; those definitions are modelled from
the specification and are marked as such.  The dashboard transcript
viewer (`handleViewTranscript`) is embedded from the TypeScript source.
-/

/-! ## Session supervisor: embedding of the Python shutdown path

Source (guide, `signal_handler`):
```
def signal_handler(sig, frame):
    print("\n\nEnding conversation...")
    shutdown_flag.set()
    def force_end():
        try:
            conversation.end_session()
        except Exception as e:
            print(f"Error ending session: \x7be\x7d")
    end_thread = threading.Thread(target=force_end)
    end_thread.daemon = True
    end_thread.start()
    end_thread.join(timeout=2.0)  # Max 2 secondes
    save_transcript_on_exit()
    os._exit(0)  # Force exit
```
Times are modelled in milliseconds as naturals. -/

/-- Behaviour of the remote `conversation.end_session()` call inside the
`force_end` thread: it may return normally after `d` ms, raise after
`d` ms, or hang forever. -/
inductive EndSessionBehavior where
  | returns (d : Nat)
  | raises (d : Nat) (msg : String)
  | hangs
deriving DecidableEq, Repr

/-- The join timeout of the `end_thread`: `end_thread.join(timeout=2.0)`. -/
def timeoutMs : Nat := 2000

/-- `force_end`: runs `conversation.end_session()` under `try/except`;
an exception is printed and swallowed.  The function is total: it
returns the list of lines it printed, and never propagates an
exception (its Lean type has no error component). -/
def force_end (endSessionOutcome : Except String Unit) : List String :=
  match endSessionOutcome with
  | .ok _ => []
  | .error e => ["Error ending session: " ++ e]

/-- `wait_with_timeout`: runs `conversation.wait_for_session_end()` under
`try/except`, storing the conversation id on success and printing the
error otherwise.  Total: returns `(conversation_id, printed lines)`. -/
def wait_with_timeout (waitOutcome : Except String Nat) : Option Nat × List String :=
  match waitOutcome with
  | .ok cid => (some cid, [])
  | .error e => (none, ["[ERROR] Session ended with error: " ++ e])

/-- When (if ever) the `force_end` daemon thread finishes, per behaviour
of the wrapped `end_session()` call.  A raise is caught by the
`try/except`, so the thread still finishes at that time. -/
def threadFinishTime : EndSessionBehavior → Option Nat
  | .returns d => some d
  | .raises d _ => some d
  | .hangs => none

/-- Wall-clock time spent in `end_thread.join(timeout=2.0)`: the join
returns when the thread finishes or when the timeout elapses,
whichever is first. -/
def joinTime (b : EndSessionBehavior) : Nat :=
  match threadFinishTime b with
  | some d => min d timeoutMs
  | none => timeoutMs

/-- Lines printed by the `force_end` thread before the process exits:
present exactly when the wrapped call raised before the join deadline
(a hung call prints nothing; a normal return prints nothing). -/
def forceEndPrinted (b : EndSessionBehavior) : List String :=
  match b with
  | .raises d m => if d ≤ timeoutMs then ["Error ending session: " ++ m] else []
  | _ => []

/-- Modelled from the spec: the body of `save_transcript_on_exit` is not
among the repository sources (only its call site in `signal_handler`
is).  Per the specification, the transcript flush is wrapped so that an
exception raised inside it is logged and never propagated; the Lean
function is accordingly total, returning only the logged lines. -/
def save_transcript_on_exit (flushOutcome : Except String Unit) : List String :=
  match flushOutcome with
  | .ok _ => []
  | .error e => ["Error saving transcript: " ++ e]

/-- Observable steps of a termination path, in execution order. -/
inductive SupEvent where
  | setShutdownFlag
  | startEndThread
  | joinEndThread
  | sessionWaitDone
  | flushTranscript
  | processExit
deriving DecidableEq, Repr

/-- Result of running a termination path to completion. -/
structure HandlerResult where
  trace : List SupEvent
  printed : List String
  exited : Bool
  exitCode : Nat
  elapsedMs : Nat
deriving DecidableEq, Repr

/-- The interrupt path of `signal_handler`, run to completion.  The body
is straight-line: set the shutdown flag, start the daemon `force_end`
thread, join it with a 2 s timeout, flush the transcript, then
`os._exit(0)`.  `flushExitCost` is the wall-clock cost of the flush and
the forced exit themselves. -/
def runSignalHandler (b : EndSessionBehavior) (flushOutcome : Except String Unit)
    (flushExitCost : Nat) : HandlerResult :=
  { trace := [.setShutdownFlag, .startEndThread, .joinEndThread,
              .flushTranscript, .processExit]
    printed := ["Ending conversation..."] ++ forceEndPrinted b
               ++ save_transcript_on_exit flushOutcome
    exited := true
    exitCode := 0
    elapsedMs := joinTime b + flushExitCost }

/-- Modelled from the spec: the normal-completion path (`runSession`) is
not among the repository sources beyond `wait_with_timeout` and its
joining thread; per the specification, once the remote session-ended
notification arrives the supervisor flushes the transcript and exits
with code 0. -/
def runNormalCompletion (waitOutcome : Except String Nat)
    (flushOutcome : Except String Unit) : HandlerResult :=
  { trace := [.sessionWaitDone, .flushTranscript, .processExit]
    printed := (wait_with_timeout waitOutcome).2
               ++ save_transcript_on_exit flushOutcome
    exited := true
    exitCode := 0
    elapsedMs := 0 }

/-- Supervisor state as observable from the embedded handler: the
`shutdown_flag` event, how many transcript flushes have been performed,
and whether the process has exited.  The spec state `Running`
corresponds to `shutdown_flag = false ∧ exited = false`. -/
structure SupervisorSt where
  shutdown_flag : Bool
  flushCount : Nat
  exited : Bool
deriving DecidableEq, Repr

/-- State effect of one invocation of `signal_handler`.  The body
contains no guard of any kind: every invocation sets the flag, runs the
join, flushes the transcript and force-exits. -/
def signal_handler (s : SupervisorSt) : SupervisorSt :=
  { shutdown_flag := true
    flushCount := s.flushCount + 1
    exited := true }

/-- Delivery of an interrupt signal to the process: the operating system
can only run the handler while the process is alive; after `os._exit`
nothing more is delivered. -/
def deliverInterrupt (s : SupervisorSt) : SupervisorSt :=
  if s.exited then s else signal_handler s

/-! ## Closing-keyword detector

Source (guide, `on_agent_response`):
```
def on_agent_response(response):
    capture_message("agent", response)
    end_keywords = ["au revoir", "goodbye", "je vais raccrocher",
                    "merci de votre temps", "bonne journée"]
    if any(keyword in response.lower() for keyword in end_keywords):
        print("\n[INFO] Agent is ending the conversation...")
```
-/

/-- Python `str.lower` restricted to the character ranges relevant to
the configured keywords and their case variants: ASCII `A`–`Z` and the
Latin-1 uppercase letters `À`–`Þ` (excluding `×`) map down by 32 code
points; everything else is unchanged. -/
def pyLowerChar (c : Char) : Char :=
  if ('A' ≤ c ∧ c ≤ 'Z') ∨ ('À' ≤ c ∧ c ≤ 'Þ' ∧ c ≠ '×') then
    Char.ofNat (c.toNat + 32)
  else c

/-- Python `str.lower` over a whole string (character-wise). -/
def pyLower (s : String) : String := String.mk (s.toList.map pyLowerChar)

/-- Whether `needle` occurs at the start of `hay`. -/
def startsWithSeq : List Char → List Char → Bool
  | [], _ => true
  | _ :: _, [] => false
  | a :: as, b :: bs => (a == b) && startsWithSeq as bs

/-- Python substring containment `needle in hay`. -/
def containsSeq : List Char → List Char → Bool
  | needle, [] => needle.isEmpty
  | needle, c :: rest => startsWithSeq needle (c :: rest) || containsSeq needle rest

/-- The configured closing-phrase list, verbatim from the source. -/
def end_keywords : List String :=
  ["au revoir", "goodbye", "je vais raccrocher", "merci de votre temps",
   "bonne journée"]

/-- Observable effect of one call to `on_agent_response`. -/
structure AgentResponseEffect where
  transcriptAppend : List (String × String)
  infoFired : Bool
  printed : List String
  sessionEnded : Bool
deriving DecidableEq, Repr

/-- `on_agent_response`: captures the agent message, then checks whether
any configured keyword is a substring of the lowercased response; on a
match it only prints an informational line.  No branch ends the
session or mutates any session state. -/
def on_agent_response (response : String) : AgentResponseEffect :=
  let fired := end_keywords.any (fun k => containsSeq k.toList (pyLower response).toList)
  { transcriptAppend := [("agent", response)]
    infoFired := fired
    printed := if fired then ["[INFO] Agent is ending the conversation..."] else []
    sessionEnded := false }

/-! ## Audio gate and voice-activity estimator

The implementation file (`echo_cancellation_audio.py` /
`EchoCancellationAudioInterface`) is not among the repository sources;
only its documentation is.  The definitions below are modelled from the
specification (state machine, adaptive threshold, calibration). -/

/-- The gate's mode. -/
inductive GateState where
  | Calibrating
  | Listening
  | AgentSpeaking
  | CooldownAfterAgent
deriving DecidableEq, Repr

/-- An audio frame: a fixed buffer of PCM samples (modelled as exact
rationals). -/
def AudioFrame : Type := List ℚ

/-- Modelled from the spec: per-frame energy, a pure function of the
frame — mean of squared samples (an "aggregate of observed energies";
the spec leaves the exact aggregate as an example). -/
def frameEnergy (f : AudioFrame) : ℚ :=
  (f.map (fun s => s * s)).sum / (f.length : ℚ)

/-- Modelled from the spec: the fixed policy multiplier `k` applied to
the noise floor when forming the adaptive threshold. -/
def kMultiplier : ℚ := 2

/-- Modelled from the spec: the effective threshold is the larger of the
configured volume threshold and `k` times the calibrated noise floor. -/
def effectiveThreshold (volumeThreshold noiseFloor : ℚ) : ℚ :=
  max volumeThreshold (kMultiplier * noiseFloor)

/-- Modelled from the spec: frame-by-frame gate decision.  A frame is
forwarded (returned) only in `Listening`, and there exactly when its
energy exceeds the effective threshold; in every other state the frame
is dropped regardless of its energy.  Dropped frames are discarded,
never stored. -/
def processFrame (volumeThreshold noiseFloor : ℚ) (st : GateState)
    (f : AudioFrame) : Option AudioFrame :=
  match st with
  | .Listening =>
      if effectiveThreshold volumeThreshold noiseFloor < frameEnergy f then some f
      else none
  | _ => none

/-- Modelled from the spec: the fixed calibration window (2 seconds). -/
def calibrationDurationMs : Nat := 2000

/-- Modelled from the spec: calibration accumulates the energies of the
frames captured during the fixed window and takes their mean as the
noise floor, then transitions the gate to `Listening`. -/
def calibrate (frames : List AudioFrame) : ℚ × GateState :=
  (((frames.map frameEnergy).sum) / (frames.length : ℚ), GateState.Listening)

/-- External events driving the gate state machine. -/
inductive GateEvent where
  | calibrationDone
  | agentStartedSpeaking
  | agentStoppedSpeaking
  | cooldownElapsed
deriving DecidableEq, Repr

/-- Modelled from the spec: the gate state machine.  Playback restarting
during cooldown returns to `AgentSpeaking`; the cooldown elapsing
returns to `Listening`; no event ever re-enters `Calibrating`. -/
def gateTransition : GateState → GateEvent → GateState
  | .Calibrating, .calibrationDone => .Listening
  | .Listening, .agentStartedSpeaking => .AgentSpeaking
  | .AgentSpeaking, .agentStoppedSpeaking => .CooldownAfterAgent
  | .CooldownAfterAgent, .cooldownElapsed => .Listening
  | .CooldownAfterAgent, .agentStartedSpeaking => .AgentSpeaking
  | s, _ => s

/-! ## Dashboard transcript viewer

Embedded from `frontend/src/components/tabs/ControlTower.tsx`,
`handleViewTranscript(taskId, conversationId, supplier)`.  JavaScript
string-or-null values are modelled as `Option String`; JavaScript
truthiness on them is `false` for `null` and for the empty string. -/

/-- JavaScript truthiness of a `string | null` value. -/
def jsTruthy : Option String → Bool
  | none => false
  | some s => !(s == "")

/-- Which transcript API endpoint a call hits. -/
inductive TranscriptFetch where
  | byTaskId (id : String)
  | byConversationId (id : String)
deriving DecidableEq, Repr

/-- A toast notification as issued by the component. -/
structure Toast where
  title : String
  description : String
  destructiveVariant : Bool
deriving DecidableEq, Repr

/-- Observable outcome of one `handleViewTranscript` call. -/
structure ViewTranscriptResult where
  toasts : List Toast
  apiRequest : Option TranscriptFetch
  dialogOpened : Bool
  dialogContent : String
  dialogSupplier : Option String
  loadingFinal : Option String
deriving DecidableEq, Repr

/-- `handleViewTranscript`: guard on `!taskId && !conversationId` shows a
destructive "No transcript available" toast and returns before any API
call; otherwise it fetches by task id when `taskId` is truthy, else by
conversation id, opening the dialog on success (with
`formatted_text || "No transcript content available"`) and toasting on
failure; `loadingTranscript` is reset to `null` in the `finally`
block.  `fetchResult` stands for the awaited API response:
`.ok formattedText` on success, `.error` when the call throws. -/
def handleViewTranscript (taskId conversationId : Option String)
    (supplier : String) (fetchResult : Except String (Option String)) :
    ViewTranscriptResult :=
  if !(jsTruthy taskId) && !(jsTruthy conversationId) then
    { toasts := [{ title := "Error",
                   description := "No transcript available for this activity",
                   destructiveVariant := true }]
      apiRequest := none
      dialogOpened := false
      dialogContent := ""
      dialogSupplier := none
      loadingFinal := none }
  else
    let request : TranscriptFetch :=
      if jsTruthy taskId then .byTaskId (taskId.getD "")
      else .byConversationId (conversationId.getD "")
    match fetchResult with
    | .ok formattedText =>
        { toasts := []
          apiRequest := some request
          dialogOpened := true
          dialogContent :=
            match formattedText with
            | some t => if t == "" then "No transcript content available" else t
            | none => "No transcript content available"
          dialogSupplier := some supplier
          loadingFinal := none }
    | .error _ =>
        { toasts := [{ title := "Error",
                       description := "Failed to load transcript",
                       destructiveVariant := true }]
          apiRequest := some request
          dialogOpened := false
          dialogContent := ""
          dialogSupplier := none
          loadingFinal := none }

/-- Modelled from the spec: the gate applied frame-by-frame to a
captured stream while in `Listening`; each frame is forwarded or
dropped immediately, so the forwarded stream is computed per frame with
no buffering. -/
def gateOutputs (vt nf : ℚ) (frames : List AudioFrame) : List AudioFrame :=
  frames.filterMap (processFrame vt nf .Listening)

/-- Per-frame energy is non-negative (mean of squares). -/
theorem frameEnergy_nonneg (f : AudioFrame) : 0 ≤ frameEnergy f := by
  unfold frameEnergy
  apply div_nonneg
  · apply List.sum_nonneg
    intro x hx
    simp only [List.mem_map] at hx
    obtain ⟨s, _, rfl⟩ := hx
    exact mul_self_nonneg s
  · exact Nat.cast_nonneg _

/-- C1: an interrupt delivered while the supervisor is `Running`
(shutdown flag clear, process alive) always completes the shutdown
sequence and force-exits; the join contributes at most the 2000 ms
timeout, so the whole handler takes at most `timeout` plus the cost of
the flush and exit themselves, whether `end_session()` returns, raises
or hangs forever. -/
theorem interrupt_shutdown_bounded :
    ∀ (s : SupervisorSt) (b : EndSessionBehavior) (fo : Except String Unit) (c : Nat),
      s.shutdown_flag = false → s.exited = false →
      (signal_handler s).exited = true ∧
      (runSignalHandler b fo c).exited = true ∧
      (runSignalHandler b fo c).trace.getLast? = some SupEvent.processExit ∧
      joinTime b ≤ timeoutMs ∧
      (runSignalHandler b fo c).elapsedMs ≤ timeoutMs + c := by
  intro s b fo c _ _
  have hj : joinTime b ≤ timeoutMs := by
    cases b with
    | returns d => exact Nat.min_le_right d timeoutMs
    | raises d m => exact Nat.min_le_right d timeoutMs
    | hangs => exact Nat.le_refl timeoutMs
  refine ⟨rfl, rfl, rfl, hj, ?_⟩
  simpa [runSignalHandler] using Nat.add_le_add_right hj c

/-- C1 witness: the theorem applied at a concrete `Running` state with a
hanging `end_session()`. -/
theorem interrupt_shutdown_bounded_app :
    (runSignalHandler EndSessionBehavior.hangs (Except.ok ()) 5).elapsedMs ≤ timeoutMs + 5 :=
  (interrupt_shutdown_bounded ⟨false, 0, false⟩ EndSessionBehavior.hangs
    (Except.ok ()) 5 rfl rfl).2.2.2.2

/-- C2 counterexample: in a state where shutdown has already been
initiated (`shutdown_flag = true`, so the supervisor is no longer
`Running`) but the process has not yet exited, a further invocation of
`signal_handler` is not a no-op: the body has no guard, so it flushes
the transcript a second time. -/
theorem signal_handler_second_invocation_not_noop :
    (signal_handler { shutdown_flag := true, flushCount := 1, exited := false }).flushCount = 2 ∧
    signal_handler { shutdown_flag := true, flushCount := 1, exited := false } ≠
      { shutdown_flag := true, flushCount := 1, exited := false } := by
  decide

/-- C2 amended: the handler has no idempotency guard — every invocation
reaching it runs the full shutdown sequence (one more flush, then
exit).  Two rapid interrupts still yield exactly one flush and one exit
only because the first invocation's forced exit prevents the second
from being delivered at all, not because of any state guard. -/
theorem interrupt_single_shutdown_amended :
    ∀ s : SupervisorSt, s.exited = false →
      deliverInterrupt s = signal_handler s ∧
      (deliverInterrupt s).flushCount = s.flushCount + 1 ∧
      (deliverInterrupt s).exited = true ∧
      deliverInterrupt (deliverInterrupt s) = deliverInterrupt s := by
  intro s h
  simp [deliverInterrupt, h, signal_handler]

/-- C2 witness: the amended theorem applied at the initial state — a
second interrupt after the first has exited the process changes
nothing. -/
theorem interrupt_single_shutdown_amended_app :
    deliverInterrupt (deliverInterrupt ⟨false, 0, false⟩) = deliverInterrupt ⟨false, 0, false⟩ :=
  (interrupt_single_shutdown_amended ⟨false, 0, false⟩ rfl).2.2.2

/-- C3: on both termination paths (interrupt with any `end_session()`
behaviour, and normal completion with any remote wait outcome), the
transcript flush occurs strictly before process exit, and an exception
raised inside the flush is logged while the process still exits with
its otherwise-determined status (code 0). -/
theorem transcript_flush_wrapped_on_all_paths :
    ∀ (b : EndSessionBehavior) (w : Except String Nat) (e : String) (c : Nat),
      (∀ fo : Except String Unit,
        SupEvent.flushTranscript ∈ (runSignalHandler b fo c).trace ∧
        SupEvent.flushTranscript ∈ (runNormalCompletion w fo).trace) ∧
      (runSignalHandler b (Except.error e) c).exited = true ∧
      (runSignalHandler b (Except.error e) c).exitCode = 0 ∧
      (runSignalHandler b (Except.error e) c).trace.indexOf SupEvent.flushTranscript <
        (runSignalHandler b (Except.error e) c).trace.indexOf SupEvent.processExit ∧
      ("Error saving transcript: " ++ e) ∈ (runSignalHandler b (Except.error e) c).printed ∧
      (runNormalCompletion w (Except.error e)).exited = true ∧
      (runNormalCompletion w (Except.error e)).exitCode = 0 ∧
      (runNormalCompletion w (Except.error e)).trace.indexOf SupEvent.flushTranscript <
        (runNormalCompletion w (Except.error e)).trace.indexOf SupEvent.processExit ∧
      ("Error saving transcript: " ++ e) ∈ (runNormalCompletion w (Except.error e)).printed := by
  intro b w e c
  refine ⟨fun fo => ⟨?_, ?_⟩, rfl, rfl, ?_, ?_, rfl, rfl, ?_, ?_⟩
  · simp [runSignalHandler]
  · simp [runNormalCompletion]
  · have h : (runSignalHandler b (Except.error e) c).trace =
        [SupEvent.setShutdownFlag, SupEvent.startEndThread, SupEvent.joinEndThread,
         SupEvent.flushTranscript, SupEvent.processExit] := rfl
    rw [h]; decide
  · simp [runSignalHandler, save_transcript_on_exit]
  · have h : (runNormalCompletion w (Except.error e)).trace =
        [SupEvent.sessionWaitDone, SupEvent.flushTranscript, SupEvent.processExit] := rfl
    rw [h]; decide
  · simp [runNormalCompletion, save_transcript_on_exit]

/-- C4: while the gate is in `AgentSpeaking` or `CooldownAfterAgent`, no
frame is forwarded, whatever its energy (so whatever the voice-activity
decision); conversely, any forwarded frame must have been processed in
`Listening`. -/
theorem gate_mutes_outside_listening :
    (∀ (vt nf : ℚ) (st : GateState) (f : AudioFrame),
        st = GateState.AgentSpeaking ∨ st = GateState.CooldownAfterAgent →
        processFrame vt nf st f = none) ∧
    (∀ (vt nf : ℚ) (st : GateState) (f g : AudioFrame),
        processFrame vt nf st f = some g → st = GateState.Listening) := by
  constructor
  · intro vt nf st f h
    rcases h with rfl | rfl <;> rfl
  · intro vt nf st f g h
    cases st with
    | Listening => rfl
    | Calibrating => exact absurd h (by simp [processFrame])
    | AgentSpeaking => exact absurd h (by simp [processFrame])
    | CooldownAfterAgent => exact absurd h (by simp [processFrame])

/-- C4 witness: a loud frame delivered during `AgentSpeaking` is still
dropped. -/
theorem gate_mutes_outside_listening_app :
    processFrame 0 0 GateState.AgentSpeaking ([10] : AudioFrame) = none :=
  gate_mutes_outside_listening.1 0 0 GateState.AgentSpeaking ([10] : AudioFrame)
    (Or.inl rfl)

/-- C5: in `Listening`, a frame is forwarded (unchanged) exactly when
its energy exceeds the effective threshold
`max(volume_threshold, k * noise_floor)`, and dropped exactly
otherwise; over a whole stream the forwarded frames are precisely the
above-threshold input frames in order — nothing is buffered or
delayed. -/
theorem listening_forwards_iff_above_threshold :
    ∀ (vt nf : ℚ) (f : AudioFrame),
      (processFrame vt nf GateState.Listening f = some f ↔
        effectiveThreshold vt nf < frameEnergy f) ∧
      (processFrame vt nf GateState.Listening f = none ↔
        ¬ effectiveThreshold vt nf < frameEnergy f) ∧
      effectiveThreshold vt nf = max vt (kMultiplier * nf) ∧
      ∀ frames : List AudioFrame,
        gateOutputs vt nf frames =
          frames.filter (fun g => decide (effectiveThreshold vt nf < frameEnergy g)) := by
  intro vt nf f
  refine ⟨?_, ?_, rfl, ?_⟩
  · by_cases h : effectiveThreshold vt nf < frameEnergy f <;> simp [processFrame, h]
  · by_cases h : effectiveThreshold vt nf < frameEnergy f <;> simp [processFrame, h]
  · intro frames
    induction frames with
    | nil => rfl
    | cons g gs ih =>
        by_cases h : effectiveThreshold vt nf < frameEnergy g <;>
          simp [gateOutputs, processFrame, h, List.filter_cons] at ih ⊢ <;>
          exact ih

/-- C6: calibration is a one-shot phase of fixed 2000 ms duration: it
produces a non-negative noise floor and hands the gate to `Listening`;
during `Calibrating` no frame is ever forwarded; and no transition of
the gate state machine ever re-enters `Calibrating`, so calibration
happens exactly once per session start. -/
theorem calibration_once_and_nonneg :
    ∀ frames : List AudioFrame,
      0 ≤ (calibrate frames).1 ∧
      (calibrate frames).2 = GateState.Listening ∧
      calibrationDurationMs = 2000 ∧
      (∀ (vt nf : ℚ) (f : AudioFrame),
        processFrame vt nf GateState.Calibrating f = none) ∧
      (∀ (s : GateState) (e : GateEvent),
        s ≠ GateState.Calibrating → gateTransition s e ≠ GateState.Calibrating) := by
  intro frames
  refine ⟨?_, rfl, rfl, fun vt nf f => rfl, ?_⟩
  · apply div_nonneg
    · apply List.sum_nonneg
      intro x hx
      simp only [List.mem_map] at hx
      obtain ⟨g, _, rfl⟩ := hx
      exact frameEnergy_nonneg g
    · exact Nat.cast_nonneg _
  · intro s e hs
    cases s <;> cases e <;> simp [gateTransition] <;> exact absurd rfl hs

/-- C6 witness: the theorem applied to a concrete calibration window,
and to the `Listening` state for the no-re-entry conjunct. -/
theorem calibration_once_and_nonneg_app :
    0 ≤ (calibrate [([1, 2] : AudioFrame), ([3] : AudioFrame)]).1 ∧
    gateTransition GateState.Listening GateEvent.agentStartedSpeaking ≠
      GateState.Calibrating :=
  ⟨(calibration_once_and_nonneg [([1, 2] : AudioFrame), ([3] : AudioFrame)]).1,
   (calibration_once_and_nonneg [([1, 2] : AudioFrame), ([3] : AudioFrame)]).2.2.2.2
     GateState.Listening GateEvent.agentStartedSpeaking (by decide)⟩

/-- C7: the closing-keyword detector fires exactly when some configured
phrase is a substring of the lowercased utterance; firing never ends
the session (no branch of `on_agent_response` touches session state);
the decision is invariant under case changes of the utterance; and an
utterance containing "au revoir" in any casing does fire. -/
theorem closing_keyword_signal_only :
    (∀ r : String, (on_agent_response r).infoFired = true ↔
        ∃ k ∈ end_keywords, containsSeq k.toList (pyLower r).toList = true) ∧
    (∀ r : String, (on_agent_response r).sessionEnded = false ∧
        (on_agent_response r).transcriptAppend = [(("agent" : String), r)]) ∧
    (∀ r₁ r₂ : String, pyLower r₁ = pyLower r₂ →
        (on_agent_response r₁).infoFired = (on_agent_response r₂).infoFired) ∧
    (on_agent_response ("Bon, Au REVOIR monsieur")).infoFired = true ∧
    (on_agent_response ("Bonjour tout le monde")).infoFired = false := by
  refine ⟨?_, fun r => ⟨rfl, rfl⟩, ?_, by decide, by decide⟩
  · intro r
    simp [on_agent_response, List.any_eq_true]
  · intro r₁ r₂ h
    simp only [on_agent_response]
    rw [h]

/-- C7 witness: case-invariance applied at concrete utterances. -/
theorem closing_keyword_signal_only_app :
    (on_agent_response ("AU REVOIR")).infoFired = (on_agent_response ("au revoir")).infoFired :=
  closing_keyword_signal_only.2.2.1 ("AU REVOIR") ("au revoir") (by decide)

/-- C8: an exception from the remote `end_session()` or
`wait_for_session_end()` call is caught and logged by `force_end` /
`wait_with_timeout` (both are total into their log output), and the
shutdown path still flushes the transcript and exits on both the
interrupt and the normal-completion paths. -/
theorem remote_errors_never_escape_shutdown :
    ∀ (e : String) (d c cid : Nat) (fo : Except String Unit),
      force_end (Except.error e) = ["Error ending session: " ++ e] ∧
      force_end (Except.ok ()) = [] ∧
      wait_with_timeout (Except.error e) =
        (none, ["[ERROR] Session ended with error: " ++ e]) ∧
      wait_with_timeout (Except.ok cid) = (some cid, []) ∧
      (runSignalHandler (EndSessionBehavior.raises d e) fo c).exited = true ∧
      SupEvent.flushTranscript ∈ (runSignalHandler (EndSessionBehavior.raises d e) fo c).trace ∧
      (runNormalCompletion (Except.error e) fo).exited = true ∧
      SupEvent.flushTranscript ∈ (runNormalCompletion (Except.error e) fo).trace := by
  intro e d c cid fo
  refine ⟨rfl, rfl, rfl, rfl, rfl, ?_, rfl, ?_⟩
  · simp [runSignalHandler]
  · simp [runNormalCompletion]

/-- C9: on the interrupt path the transcript flush is strictly after the
join on the `end_session()` attempt (completed or abandoned at the
timeout) and strictly before process exit; on the normal path it is
strictly after the session-ended notification and strictly before
exit. -/
theorem flush_ordered_between_end_attempt_and_exit :
    ∀ (b : EndSessionBehavior) (fo : Except String Unit) (c : Nat) (w : Except String Nat),
      ((runSignalHandler b fo c).trace.indexOf SupEvent.joinEndThread <
        (runSignalHandler b fo c).trace.indexOf SupEvent.flushTranscript ∧
       (runSignalHandler b fo c).trace.indexOf SupEvent.flushTranscript <
        (runSignalHandler b fo c).trace.indexOf SupEvent.processExit) ∧
      ((runNormalCompletion w fo).trace.indexOf SupEvent.sessionWaitDone <
        (runNormalCompletion w fo).trace.indexOf SupEvent.flushTranscript ∧
       (runNormalCompletion w fo).trace.indexOf SupEvent.flushTranscript <
        (runNormalCompletion w fo).trace.indexOf SupEvent.processExit) := by
  intro b fo c w
  have h1 : (runSignalHandler b fo c).trace =
      [SupEvent.setShutdownFlag, SupEvent.startEndThread, SupEvent.joinEndThread,
       SupEvent.flushTranscript, SupEvent.processExit] := rfl
  have h2 : (runNormalCompletion w fo).trace =
      [SupEvent.sessionWaitDone, SupEvent.flushTranscript, SupEvent.processExit] := rfl
  rw [h1, h2]
  decide

/-- C10 counterexample: `taskId = some ""` is non-null, yet the code's
truthiness test sends the request to the conversation-id endpoint, not
the task-id endpoint, refuting the claim's "when taskId is non-null it
fetches by taskId". -/
theorem handleViewTranscript_empty_taskId_cex :
    (some ("") : Option String) ≠ none ∧
    (handleViewTranscript (some ("")) (some ("c")) ("S")
        (Except.ok (some ("t")))).apiRequest =
      some (TranscriptFetch.byConversationId ("c")) ∧
    (handleViewTranscript (some ("")) (some ("c")) ("S")
        (Except.ok (some ("t")))).apiRequest ≠
      some (TranscriptFetch.byTaskId ("")) := by
  decide

/-- C10 amended: with both ids null (or, more generally, both falsy) the
handler shows the destructive "No transcript available" toast, makes no
API request and opens no dialog; when `taskId` is non-null and
non-empty it fetches by task id; when `taskId` is falsy and
`conversationId` is non-null and non-empty it fetches by conversation
id. -/
theorem handleViewTranscript_amended_ok :
    (∀ (sup : String) (r : Except String (Option String)),
        (handleViewTranscript none none sup r).toasts =
          [{ title := "Error",
             description := "No transcript available for this activity",
             destructiveVariant := true }] ∧
        (handleViewTranscript none none sup r).apiRequest = none ∧
        (handleViewTranscript none none sup r).dialogOpened = false) ∧
    (∀ (t c : Option String) (sup id : String) (r : Except String (Option String)),
        t = some id → id ≠ "" →
        (handleViewTranscript t c sup r).apiRequest =
          some (TranscriptFetch.byTaskId id)) ∧
    (∀ (t c : Option String) (sup id : String) (r : Except String (Option String)),
        jsTruthy t = false → c = some id → id ≠ "" →
        (handleViewTranscript t c sup r).apiRequest =
          some (TranscriptFetch.byConversationId id)) := by
  refine ⟨?_, ?_, ?_⟩
  · intro sup r
    exact ⟨rfl, rfl, rfl⟩
  · intro t c sup id r ht hid
    subst ht
    have hq : jsTruthy (some id) = true := by
      simp [jsTruthy, hid]
    cases r with
    | ok ft => simp [handleViewTranscript, hq]
    | error m => simp [handleViewTranscript, hq]
  · intro t c sup id r ht hc hid
    subst hc
    have hq : jsTruthy (some id) = true := by
      simp [jsTruthy, hid]
    cases r with
    | ok ft => simp [handleViewTranscript, hq, ht]
    | error m => simp [handleViewTranscript, hq, ht]

/-- C10 witness: the amended theorem applied at concrete ids. -/
theorem handleViewTranscript_amended_app :
    (handleViewTranscript (some ("tk")) (some ("c")) ("S")
        (Except.ok (some ("txt")))).apiRequest =
      some (TranscriptFetch.byTaskId ("tk")) :=
  handleViewTranscript_amended_ok.2.1 (some ("tk")) (some ("c")) ("S") ("tk")
    (Except.ok (some ("txt"))) rfl (by decide)
